import Mathlib

/-
Shallow embedding of the nu_iox query-execution and response-classification
core (src/nu_iox/src/iox/{nuerror,nuclient,sql}.rs).

Strings manipulated by the classifier are modelled as lists of characters.
The three external collaborators (the flight gateway, the output formatter,
and the CSV row counter from util.rs, which is not among the provided
sources) are modelled as explicit parameters or, where noted, from the
specification text.
-/

/- Characters written by code point to keep literals unambiguous. -/
def quoteChar : Char := Char.ofNat 34

def aposChar : Char := Char.ofNat 39

def singleQuote : String := Char.toString aposChar

/-- Boolean prefix test on character lists: the match condition of nom
  bytes::complete::take_until at one position. -/
def listPrefix : List Char → List Char → Bool
  | [], _ => true
  | _ :: _, [] => false
  | a :: as, b :: bs => a == b && listPrefix as bs

/-- Embedding of nom take_until(marker): some (taken, rest) where taken is the
  input up to the first occurrence of marker and rest starts with the marker;
  none when the marker does not occur (nom returns Err there, which the Rust
  callers unwrap). nom returns the pair as (rest, taken); the callers below
  destructure accordingly. -/
def takeUntil (m : List Char) : List Char → Option (List Char × List Char)
  | [] => if listPrefix m [] then some ([], []) else none
  | c :: s =>
    if listPrefix m (c :: s) then some ([], c :: s)
    else (takeUntil m s).map (fun pr => (c :: pr.1, pr.2))

def detailsMarker : List Char := (", details: ").toList

def messageMarker : List Char := (", message: ").toList

def statusMarker : List Char := ("status: ").toList

/-- nuerror.rs remove_details: take_until ", details: ". -/
def remove_details (s : List Char) : Option (List Char × List Char) :=
  takeUntil detailsMarker s

/-- nuerror.rs get_message: take_until ", message: ". -/
def get_message (s : List Char) : Option (List Char × List Char) :=
  takeUntil messageMarker s

/-- nuerror.rs get_header: take_until "status: ". -/
def get_header (s : List Char) : Option (List Char × List Char) :=
  takeUntil statusMarker s

/-- nuerror.rs remove_slash_from_string: str::replace of the character set
  ( ) , double-quote ; single-quote by the empty string. -/
def remove_slash_from_string (s : List Char) : List Char :=
  s.filter (fun c =>
    !(c == '(' || c == ')' || c == ',' || c == quoteChar || c == ';' || c == aposChar))

/-- nuerror.rs remove_colon_from_string: str::replace of colon by empty. -/
def remove_colon_from_string (s : List Char) : List Char :=
  s.filter (fun c => !(c == ':'))

inductive NuIoxErrorType where
  | TableNotFound
deriving DecidableEq

/-- The Display impl for NuIoxErrorType writes the Debug form. -/
def NuIoxErrorType.toString : NuIoxErrorType → String
  | .TableNotFound => "TableNotFound"

structure NuIoxError where
  start : List Char
  error_type : NuIoxErrorType
  header : List Char
  status : List Char
  message : List Char
deriving DecidableEq

/-- nuerror.rs NuIoxError::build. The Rust code unwraps each nom result; a
  failed unwrap (marker absent) is modelled as none. Note the destructuring:
  nom yields (rest, taken), so details is the text before ", details: ",
  message0 is the rest of details from ", message: " on (marker included),
  remainder the text before it, status0 the rest of remainder from
  "status: " on, header0 the text before it. -/
def NuIoxError.build (data : List Char) : Option NuIoxError :=
  match remove_details data with
  | none => none
  | some (details, _) =>
    match get_message details with
    | none => none
    | some (remainder, message0) =>
      match get_header remainder with
      | none => none
      | some (header0, status0) =>
        some { start := data
               error_type := NuIoxErrorType.TableNotFound
               header := remove_colon_from_string header0
               status := status0
               message := remove_slash_from_string message0 }

/- ---------- nuclient.rs ---------- -/

/-- A record batch is opaque to the client except for its row count. -/
structure RecordBatch where
  num_rows : Nat
deriving DecidableEq

/-- Modelled from the spec: QueryOutputFormat belongs to the external crate
  influxdb_iox_client::format, not among the provided sources; spec section 3
  gives the fixed named set, at minimum Pretty and CSV. -/
inductive QueryOutputFormat where
  | Pretty
  | CSV
deriving DecidableEq

/-- Display string of an external influxdb_iox_client::format::Error, opaque
  to the client. -/
structure FormatError where
  display : String
deriving DecidableEq

/-- Display string of an external influxdb_iox_client::flight::Error, opaque
  to the client. -/
structure FlightError where
  display : String
deriving DecidableEq

/-- Modelled from the spec: the FromStr parse of a format name lives in the
  external format crate; invalid strings are a hard error, not a default
  fallback (spec section 3). -/
def QueryOutputFormat.from_str (s : String) : Except FormatError QueryOutputFormat :=
  if s = "pretty" then Except.ok QueryOutputFormat.Pretty
  else if s = "csv" then Except.ok QueryOutputFormat.CSV
  else Except.error { display := ("Unknown format type: ") ++ s }

/-- nuclient.rs enum Error (snafu). -/
inductive Error where
  | LoadingRemoteState (source : String)
  | FormattingResults (source : FormatError)
  | SettingFormat (requested_format : String) (source : FormatError)
  | RunningRemoteQuery (source : FlightError)
deriving DecidableEq

/-- The snafu display attributes of nuclient.rs enum Error. -/
def Error.display : Error → String
  | .LoadingRemoteState s => ("Error loading remote state: ") ++ s
  | .FormattingResults e => ("Error formatting results: ") ++ e.display
  | .SettingFormat rf e =>
      ("Error setting format to ") ++ singleQuote ++ rf ++ singleQuote ++ (": ") ++ e.display
  | .RunningRemoteQuery e => ("Error running remote query: ") ++ e.display

structure Connection where
  url : String
deriving DecidableEq

inductive QueryEngine where
  | Remote (db_name : String)
deriving DecidableEq

/-- nuclient.rs struct Nuclient. The two connection-backed clients are not
  state; the gateway and formatter behaviors are passed to the operations
  that use them. -/
structure Nuclient where
  query_engine : Option QueryEngine
  output_format : QueryOutputFormat
deriving DecidableEq

/-- nuclient.rs Nuclient::new. -/
def Nuclient.new (_connection : Connection) : Nuclient :=
  { query_engine := none, output_format := QueryOutputFormat.Pretty }

/-- nuclient.rs Nuclient::set_query_engine. -/
def Nuclient.set_query_engine (self : Nuclient) (qe : QueryEngine) : Nuclient :=
  { self with query_engine := some qe }

/-- nuclient.rs Nuclient::use_database (the printed confirmation is a side
  effect with no bearing on state). -/
def Nuclient.use_database (self : Nuclient) (db_name : String) : Nuclient :=
  self.set_query_engine (QueryEngine.Remote db_name)

/-- nuclient.rs Nuclient::set_output_format: the assignment happens only when
  the parse succeeds; on failure the question-mark operator returns early and
  the previous format is kept. Mutation of self is modelled by returning the
  new state next to the Result. -/
def Nuclient.set_output_format (self : Nuclient) (requested_format : String) :
    Nuclient × Except Error Unit :=
  match QueryOutputFormat.from_str requested_format with
  | Except.error e => (self, Except.error (Error.SettingFormat requested_format e))
  | Except.ok f => ({ self with output_format := f }, Except.ok ())

/-- nuclient.rs Nuclient::row_summary. -/
def Nuclient.row_summary (batches : List RecordBatch) : String :=
  let total_rows := (batches.map RecordBatch.num_rows).sum
  if total_rows > 1 then (Nat.repr total_rows) ++ (" rows")
  else if total_rows = 0 then ("no rows")
  else ("1 row")

/-- nuclient.rs Nuclient::get_results: render under the current output
  format; a formatter failure becomes FormattingResults. The external
  formatter is the parameter format_impl. -/
def Nuclient.get_results
    (format_impl : QueryOutputFormat → List RecordBatch → Except FormatError String)
    (self : Nuclient) (batches : List RecordBatch) : Except Error String :=
  match format_impl self.output_format batches with
  | Except.error e => Except.error (Error.FormattingResults e)
  | Except.ok s => Except.ok s

/-- The while-let loop of scrape_query: the stream is the list of successive
  next() results before exhaustion; an error aborts, discarding everything. -/
def scrape_stream : List (Except FlightError RecordBatch) → Except Error (List RecordBatch)
  | [] => Except.ok []
  | Except.error e :: _ => Except.error (Error.RunningRemoteQuery e)
  | Except.ok b :: rest =>
    match scrape_stream rest with
    | Except.error e => Except.error e
    | Except.ok bs => Except.ok (b :: bs)

/-- nuclient.rs scrape_query: perform_query may fail outright; otherwise the
  stream is pulled to exhaustion. The flight client is the parameter. -/
def scrape_query
    (client : String → String → Except FlightError (List (Except FlightError RecordBatch)))
    (db_name : String) (query : String) : Except Error (List RecordBatch) :=
  match client db_name query with
  | Except.error e => Except.error (Error.RunningRemoteQuery e)
  | Except.ok stream => scrape_stream stream

/-- nuclient.rs Nuclient::run_sql. -/
def Nuclient.run_sql
    (flight_client : String → String → Except FlightError (List (Except FlightError RecordBatch)))
    (format_impl : QueryOutputFormat → List RecordBatch → Except FormatError String)
    (self : Nuclient) (sql : String) : Except Error String :=
  match self.query_engine with
  | none => Except.ok ("Error: no database selected")
  | some (QueryEngine.Remote db_name) =>
    match scrape_query flight_client db_name sql with
    | Except.error e => Except.error e
    | Except.ok batches => Nuclient.get_results format_impl self batches

/- ---------- sql.rs ---------- -/

structure IoError where
  display : String
deriving DecidableEq

/-- sql.rs tokio_block_sql: build a client on a fresh connection, select the
  database, set csv output, run the sql, and turn any Error into its display
  string, returned as a success. -/
def tokio_block_sql
    (flight_client : String → String → Except FlightError (List (Except FlightError RecordBatch)))
    (format_impl : QueryOutputFormat → List RecordBatch → Except FormatError String)
    (dbname : String) (sql : String) : Except IoError String :=
  let repl := Nuclient.new { url := ("http://127.0.0.1:8082") }
  let repl := repl.use_database dbname
  let repl := (repl.set_output_format ("csv")).1
  let rsql := Nuclient.run_sql flight_client format_impl repl sql
  match rsql with
  | Except.ok res => Except.ok res
  | Except.error e => Except.ok e.display

/-- Split a character list at newline characters. -/
def splitOnNewline : List Char → List (List Char)
  | [] => [[]]
  | c :: s =>
    let r := splitOnNewline s
    if c == '\n' then [] :: r
    else
      match r with
      | [] => [[c]]
      | l :: ls => (c :: l) :: ls

/-- Modelled from the spec: number_of_csv_records is defined in util.rs,
  which is not among the provided sources. Per spec section 4.4 it parses the
  string as delimited data and counts the resulting data rows, header row
  excluded; the rendered text contract (section 6) says the CSV form begins
  with a header row of column names. Modelled as the count of nonempty lines
  minus the header line. -/
def number_of_csv_records (s : List Char) : Option Nat :=
  some (((splitOnNewline s).filter (fun l => !(l.isEmpty))).length - 1)

inductive ShellError where
  | GenericError (message : List Char) (kind : String)
deriving DecidableEq

/-- The three observable outcomes of the classification block of Ioxsql::run:
  the string is handed downstream unchanged, or run returns the ShellError
  raised by nu_iox_error_generic, or an unwrap panics. -/
inductive RunOutcome where
  | passthrough (s : List Char)
  | errored (e : ShellError)
  | panicked
deriving DecidableEq

/-- sql.rs Ioxsql::run, lines 61 to 94: count csv records of the rendered
  string; a positive count passes the string downstream unchanged; a zero
  count builds a NuIoxErrorHandler (whose construction runs NuIoxError::build)
  and returns the GenericError of nu_iox_error_generic, carrying the built
  message and the error-type tag. -/
def ioxsql_run_classify (sql_result : List Char) : RunOutcome :=
  match number_of_csv_records sql_result with
  | none => RunOutcome.panicked
  | some n =>
    if n > 0 then RunOutcome.passthrough sql_result
    else
      match NuIoxError.build sql_result with
      | none => RunOutcome.panicked
      | some e =>
        RunOutcome.errored (ShellError.GenericError e.message (NuIoxErrorType.toString e.error_type))

/- Concrete inputs used by counterexamples and witnesses. -/

/-- An input whose markers occur in the order the spec claims: first
  ", details: ", then ", message: ", then "status: ". -/
def claimOrderInput : List Char := ("h, details: d, message: m status: s").toList

/-- The Scenario D text of spec section 8. -/
def scenarioDText : List Char :=
  ("... , details: x, message: Table not found (status: 404: extra)").toList

/- ---------- helper lemmas ---------- -/

theorem listPrefix_append (m q : List Char) : listPrefix m (m ++ q) = true := by
  induction m with
  | nil => rfl
  | cons a as ih => simp [listPrefix, ih]

theorem listPrefix_eq_true_iff (m : List Char) :
    ∀ s : List Char, listPrefix m s = true ↔ ∃ t, s = m ++ t := by
  induction m with
  | nil => intro s; simp [listPrefix]
  | cons a as ih =>
    intro s
    cases s with
    | nil => simp [listPrefix]
    | cons b bs =>
      simp only [listPrefix, Bool.and_eq_true, beq_iff_eq, ih, List.cons_append,
        List.cons.injEq]
      constructor
      · rintro ⟨rfl, t, rfl⟩; exact ⟨t, rfl, rfl⟩
      · rintro ⟨t, rfl, rfl⟩; exact ⟨rfl, t, rfl⟩

theorem takeUntil_eq_some (m : List Char) :
    ∀ s p r : List Char, takeUntil m s = some (p, r) →
      s = p ++ r ∧ listPrefix m r = true := by
  intro s
  induction s with
  | nil =>
    intro p r h
    by_cases hm : listPrefix m [] = true
    · simp [takeUntil, hm] at h
      obtain ⟨rfl, rfl⟩ := h
      exact ⟨rfl, hm⟩
    · simp [takeUntil, hm] at h
  | cons c s ih =>
    intro p r h
    rw [takeUntil] at h
    by_cases hc : listPrefix m (c :: s) = true
    · rw [if_pos hc] at h
      injection h with h1
      cases h1
      exact ⟨rfl, hc⟩
    · rw [if_neg hc] at h
      cases hrec : takeUntil m s with
      | none => rw [hrec] at h; exact absurd h (by simp)
      | some pr =>
        obtain ⟨p', r'⟩ := pr
        rw [hrec] at h
        simp only [Option.map_some'] at h
        injection h with h1
        cases h1
        obtain ⟨hs, hpre⟩ := ih _ _ hrec
        exact ⟨by rw [hs, List.cons_append], hpre⟩

theorem takeUntil_isSome_of_split (m p q : List Char) :
    (takeUntil m (p ++ (m ++ q))).isSome = true := by
  induction p with
  | nil =>
    simp only [List.nil_append]
    cases hmq : m ++ q with
    | nil =>
      have hm : m = [] := (List.append_eq_nil.mp hmq).1
      simp [takeUntil, hm, listPrefix]
    | cons c t =>
      have hpre : listPrefix m (c :: t) = true := by
        rw [← hmq]; exact listPrefix_append m q
      simp [takeUntil, hpre]
  | cons c p' ih =>
    simp only [List.cons_append]
    by_cases hc : listPrefix m (c :: (p' ++ (m ++ q))) = true
    · simp [takeUntil, hc]
    · simp [takeUntil, hc, Option.isSome_map]
      exact Option.isSome_iff_exists.mp ih |>.elim fun x hx =>
        Option.isSome_iff_exists.mpr ⟨x, hx⟩

theorem takeUntil_isSome_iff (m s : List Char) :
    (takeUntil m s).isSome = true ↔ ∃ p q, s = p ++ m ++ q := by
  constructor
  · intro h
    obtain ⟨⟨p, r⟩, hpr⟩ := Option.isSome_iff_exists.mp h
    obtain ⟨hs, hpre⟩ := takeUntil_eq_some m s p r hpr
    obtain ⟨t, rfl⟩ := (listPrefix_eq_true_iff m r).mp hpre
    exact ⟨p, t, by simp [hs, List.append_assoc]⟩
  · rintro ⟨p, q, rfl⟩
    have := takeUntil_isSome_of_split m p q
    simpa [List.append_assoc] using this

theorem takeUntil_append_first (m p q : List Char)
    (h : ∀ i, i < p.length → listPrefix m ((p ++ (m ++ q)).drop i) = false) :
    takeUntil m (p ++ (m ++ q)) = some (p, m ++ q) := by
  induction p with
  | nil =>
    simp only [List.nil_append]
    cases hmq : m ++ q with
    | nil =>
      have hm : m = [] := (List.append_eq_nil.mp hmq).1
      have hq : q = [] := (List.append_eq_nil.mp hmq).2
      simp [takeUntil, hm, hq, listPrefix]
    | cons c t =>
      have hpre : listPrefix m (c :: t) = true := by
        rw [← hmq]; exact listPrefix_append m q
      simp [takeUntil, hpre]
  | cons c p' ih =>
    have h0 : listPrefix m (c :: (p' ++ (m ++ q))) = false := by
      have := h 0 (by simp)
      simpa using this
    have h' : ∀ i, i < p'.length → listPrefix m ((p' ++ (m ++ q)).drop i) = false := by
      intro i hi
      have := h (i + 1) (by simpa using Nat.succ_lt_succ hi)
      simpa using this
    simp only [List.cons_append]
    simp [takeUntil, h0, ih h']

/- ---------- claim theorems ---------- -/

/-- Claim C1 (amended): the sequential scan of NuIoxError::build succeeds when
  the markers occur in the order "status: ", then ", message: ", then
  ", details: " (each shown occurrence being the first in the string it is
  scanned in), and then header is the text before "status: " with colons
  removed, status is the segment from "status: " up to ", message: " with the
  marker kept, and message is the segment from ", message: " up to
  ", details: " with the marker kept and parenthesis, comma, double-quote,
  semicolon and single-quote characters removed. -/
theorem build_extracts_fields (A B C D : List Char)
    (h1 : ∀ i, i < (A ++ (statusMarker ++ (B ++ (messageMarker ++ C)))).length →
        listPrefix detailsMarker
          (((A ++ (statusMarker ++ (B ++ (messageMarker ++ C)))) ++ (detailsMarker ++ D)).drop i)
          = false)
    (h2 : ∀ i, i < (A ++ (statusMarker ++ B)).length →
        listPrefix messageMarker
          (((A ++ (statusMarker ++ B)) ++ (messageMarker ++ C)).drop i) = false)
    (h3 : ∀ i, i < A.length →
        listPrefix statusMarker ((A ++ (statusMarker ++ B)).drop i) = false) :
    NuIoxError.build ((A ++ (statusMarker ++ (B ++ (messageMarker ++ C)))) ++ (detailsMarker ++ D)) =
      some { start := (A ++ (statusMarker ++ (B ++ (messageMarker ++ C)))) ++ (detailsMarker ++ D)
             error_type := NuIoxErrorType.TableNotFound
             header := remove_colon_from_string A
             status := statusMarker ++ B
             message := remove_slash_from_string (messageMarker ++ C) } := by
  have e1 : remove_details
      ((A ++ (statusMarker ++ (B ++ (messageMarker ++ C)))) ++ (detailsMarker ++ D)) =
      some (A ++ (statusMarker ++ (B ++ (messageMarker ++ C))), detailsMarker ++ D) :=
    takeUntil_append_first detailsMarker _ D h1
  have shape : A ++ (statusMarker ++ (B ++ (messageMarker ++ C))) =
      (A ++ (statusMarker ++ B)) ++ (messageMarker ++ C) := by
    simp [List.append_assoc]
  have e2 : get_message (A ++ (statusMarker ++ (B ++ (messageMarker ++ C)))) =
      some (A ++ (statusMarker ++ B), messageMarker ++ C) := by
    rw [shape]
    exact takeUntil_append_first messageMarker _ C h2
  have e3 : get_header (A ++ (statusMarker ++ B)) = some (A, statusMarker ++ B) :=
    takeUntil_append_first statusMarker A B h3
  simp only [NuIoxError.build, e1, e2, e3]

/-- Witness for claim C1 (amended): the extraction at a concrete string in
  the order the code scans. -/
theorem build_extracts_fields_witness :
    NuIoxError.build
        ((("err ").toList ++ (statusMarker ++ (("404").toList ++ (messageMarker ++ ("tnf").toList))))
          ++ (detailsMarker ++ ("[]").toList)) =
      some { start :=
               (("err ").toList ++ (statusMarker ++ (("404").toList ++ (messageMarker ++ ("tnf").toList))))
                 ++ (detailsMarker ++ ("[]").toList)
             error_type := NuIoxErrorType.TableNotFound
             header := remove_colon_from_string (("err ").toList)
             status := statusMarker ++ ("404").toList
             message := remove_slash_from_string (messageMarker ++ ("tnf").toList) } :=
  build_extracts_fields (("err ").toList) (("404").toList) (("tnf").toList) (("[]").toList)
    (by decide) (by decide) (by decide)

/-- Counterexample to claim C1 as stated: a string with zero parsable data
  rows whose three markers occur in exactly the claimed order ", details: ",
  then ", message: ", then "status: ", on which build extracts nothing at
  all: the scan looks for ", message: " inside the text before ", details: "
  and fails. -/
theorem build_claim_marker_order_counterexample :
    claimOrderInput =
        ("h").toList ++ detailsMarker ++ ("d").toList ++ messageMarker ++ ("m ").toList ++
          statusMarker ++ ("s").toList ∧
      number_of_csv_records claimOrderInput = some 0 ∧
      NuIoxError.build claimOrderInput = none := by
  refine ⟨by decide, by decide, by decide⟩

/-- Claim C2: the data-vs-error decision of Ioxsql::run uses exactly the
  parsable-row count. A positive count passes the rendered string downstream
  unchanged with no ErrorRecord; a zero count triggers marker extraction,
  producing the GenericError built from the extracted record, or reaching the
  unwrap when extraction fails. -/
theorem ioxsql_classification (s : List Char) (n : Nat)
    (h : number_of_csv_records s = some n) :
    (0 < n → ioxsql_run_classify s = RunOutcome.passthrough s) ∧
    (n = 0 →
      (∀ e, NuIoxError.build s = some e →
        ioxsql_run_classify s =
          RunOutcome.errored
            (ShellError.GenericError e.message (NuIoxErrorType.toString e.error_type))) ∧
      (NuIoxError.build s = none → ioxsql_run_classify s = RunOutcome.panicked)) := by
  constructor
  · intro hn
    simp [ioxsql_run_classify, h, hn]
  · rintro rfl
    constructor
    · intro e he
      simp [ioxsql_run_classify, h, he]
    · intro he
      simp [ioxsql_run_classify, h, he]

/-- Witness for claim C2: a two-line csv string counts one data row and is
  passed through unchanged. -/
theorem ioxsql_classification_witness :
    ioxsql_run_classify (("a,b\n1,2\n").toList) =
      RunOutcome.passthrough (("a,b\n1,2\n").toList) :=
  (ioxsql_classification (("a,b\n1,2\n").toList) 1 (by decide)).1 (by decide)

/-- Counterexample to claim C3 as stated: on the Scenario D text the
  classifier extracts nothing, so it does not produce message
  "Table not found" and status "404". -/
theorem scenarioD_counterexample :
    (NuIoxError.build scenarioDText).isSome = false := by decide

/-- Claim C3 (amended): on the Scenario D text
  "... , details: x, message: Table not found (status: 404: extra)" the
  extraction fails: the text before ", details: " does not contain
  ", message: ", so no ErrorRecord is produced and the unwrap is reached. -/
theorem scenarioD_build_fails :
    NuIoxError.build scenarioDText = none := by decide

/-- Claim C4: NuIoxError::build returns a record exactly when the sequential
  scan locates all three markers: ", details: " somewhere in the input,
  ", message: " in the text before it, and "status: " in the text before
  that; when one of the three is absent from its scanned segment the
  extraction cannot complete (the unwrap branches are reached, modelled as
  none). -/
theorem build_completes_iff (data : List Char) :
    (NuIoxError.build data).isSome = true ↔
      ∃ details rest1 remainder message0,
        remove_details data = some (details, rest1) ∧
        get_message details = some (remainder, message0) ∧
        ∃ p q, remainder = p ++ statusMarker ++ q := by
  cases hd : remove_details data with
  | none => simp [NuIoxError.build, hd]
  | some pr1 =>
    obtain ⟨details, rest1⟩ := pr1
    cases hm : get_message details with
    | none => simp [NuIoxError.build, hd, hm]
    | some pr2 =>
      obtain ⟨remainder, message0⟩ := pr2
      have hiff : (takeUntil statusMarker remainder).isSome = true ↔
          ∃ p q, remainder = p ++ statusMarker ++ q :=
        takeUntil_isSome_iff statusMarker remainder
      cases hh : get_header remainder with
      | none =>
        have hocc : ∀ p q : List Char, ¬ remainder = p ++ (statusMarker ++ q) := by
          intro p q hcontra
          have hsome : (takeUntil statusMarker remainder).isSome = true :=
            hiff.mpr ⟨p, q, by rw [hcontra, List.append_assoc]⟩
          simp only [get_header] at hh
          simp [hh] at hsome
        simp [NuIoxError.build, hd, hm, hh, hocc]
      | some pr3 =>
        obtain ⟨header0, status0⟩ := pr3
        have hsome : (takeUntil statusMarker remainder).isSome = true := by
          simp only [get_header] at hh
          simp [hh]
        obtain ⟨p, q, hpq⟩ := hiff.mp hsome
        have hocc : ∃ p q : List Char, remainder = p ++ (statusMarker ++ q) :=
          ⟨p, q, by rw [hpq, List.append_assoc]⟩
        simp [NuIoxError.build, hd, hm, hh, hocc]

/-- Claim C5: the row summary of a batch sequence is a three-way
  classification of the total row count: zero gives "no rows", one gives
  "1 row", and any larger total gives its exact decimal count followed by
  " rows". -/
theorem row_summary_spec (batches : List RecordBatch) :
    ((batches.map RecordBatch.num_rows).sum = 0 ∧
        Nuclient.row_summary batches = ("no rows")) ∨
    ((batches.map RecordBatch.num_rows).sum = 1 ∧
        Nuclient.row_summary batches = ("1 row")) ∨
    (1 < (batches.map RecordBatch.num_rows).sum ∧
        Nuclient.row_summary batches =
          (Nat.repr ((batches.map RecordBatch.num_rows).sum)) ++ (" rows")) := by
  by_cases hgt : (batches.map RecordBatch.num_rows).sum > 1
  · right; right
    exact ⟨hgt, by simp [Nuclient.row_summary, hgt]⟩
  · by_cases h0 : (batches.map RecordBatch.num_rows).sum = 0
    · left
      exact ⟨h0, by simp [Nuclient.row_summary, hgt, h0]⟩
    · right; left
      have h1 : (batches.map RecordBatch.num_rows).sum = 1 := by omega
      exact ⟨h1, by simp [Nuclient.row_summary, hgt, h0]⟩

/-- Claim C6: with no database selected, run_sql returns the advisory string
  as a success for every sql text, every gateway behavior and every
  formatter, so no gateway call can influence the result. -/
theorem run_sql_unselected
    (flight_client : String → String → Except FlightError (List (Except FlightError RecordBatch)))
    (format_impl : QueryOutputFormat → List RecordBatch → Except FormatError String)
    (f : QueryOutputFormat) (sql : String) :
    Nuclient.run_sql flight_client format_impl
        { query_engine := none, output_format := f } sql =
      Except.ok ("Error: no database selected") := rfl

/-- Claim C7: set_output_format on an unrecognized name fails with a
  SettingFormat error carrying the invalid string and leaves the state
  unchanged; on a recognized name it succeeds, stores the parsed format, and
  subsequent renders pass exactly that format to the formatter. -/
theorem set_output_format_spec (self : Nuclient) (name : String) :
    (∀ e, QueryOutputFormat.from_str name = Except.error e →
        Nuclient.set_output_format self name =
          (self, Except.error (Error.SettingFormat name e))) ∧
    (∀ f, QueryOutputFormat.from_str name = Except.ok f →
        (Nuclient.set_output_format self name).2 = Except.ok () ∧
        (Nuclient.set_output_format self name).1 = { self with output_format := f } ∧
        ∀ (format_impl : QueryOutputFormat → List RecordBatch → Except FormatError String)
          (batches : List RecordBatch),
          Nuclient.get_results format_impl (Nuclient.set_output_format self name).1 batches =
            match format_impl f batches with
            | Except.error e2 => Except.error (Error.FormattingResults e2)
            | Except.ok str => Except.ok str) := by
  constructor
  · intro e he
    simp [Nuclient.set_output_format, he]
  · intro f hf
    have h1 : (Nuclient.set_output_format self name).1 = { self with output_format := f } := by
      simp [Nuclient.set_output_format, hf]
    refine ⟨by simp [Nuclient.set_output_format, hf], h1, ?_⟩
    intro format_impl batches
    rw [h1]
    rfl

/-- Claim C8: scrape_query propagates an outright perform_query failure as
  RunningRemoteQuery; it accumulates an exhausted stream of batches in order;
  and a stream error at any point yields RunningRemoteQuery with every
  partially accumulated batch discarded. -/
theorem scrape_query_spec :
    (∀ (client : String → String → Except FlightError (List (Except FlightError RecordBatch)))
       (db_name query : String) (e : FlightError),
        client db_name query = Except.error e →
        scrape_query client db_name query = Except.error (Error.RunningRemoteQuery e)) ∧
    (∀ (client : String → String → Except FlightError (List (Except FlightError RecordBatch)))
       (db_name query : String) (bs : List RecordBatch),
        client db_name query = Except.ok (bs.map Except.ok) →
        scrape_query client db_name query = Except.ok bs) ∧
    (∀ (client : String → String → Except FlightError (List (Except FlightError RecordBatch)))
       (db_name query : String) (bs : List RecordBatch) (e : FlightError)
       (rest : List (Except FlightError RecordBatch)),
        client db_name query = Except.ok (bs.map Except.ok ++ Except.error e :: rest) →
        scrape_query client db_name query = Except.error (Error.RunningRemoteQuery e)) := by
  have all_ok : ∀ bs : List RecordBatch, scrape_stream (bs.map Except.ok) = Except.ok bs := by
    intro bs
    induction bs with
    | nil => rfl
    | cons b rest ih => simp [scrape_stream, ih]
  have with_err : ∀ (bs : List RecordBatch) (e : FlightError)
      (rest : List (Except FlightError RecordBatch)),
      scrape_stream (bs.map Except.ok ++ Except.error e :: rest) =
        Except.error (Error.RunningRemoteQuery e) := by
    intro bs e rest
    induction bs with
    | nil => rfl
    | cons b bs ih => simp [scrape_stream, ih]
  refine ⟨?_, ?_, ?_⟩
  · intro client db q e h
    simp [scrape_query, h]
  · intro client db q bs h
    simp [scrape_query, h, all_ok]
  · intro client db q bs e rest h
    simp [scrape_query, h, with_err]

/-- Claim C9: a freshly constructed client starts with no database selected
  and with the Pretty output format, for every connection. -/
theorem nuclient_new_initial (connection : Connection) :
    (Nuclient.new connection).query_engine = none ∧
      (Nuclient.new connection).output_format = QueryOutputFormat.Pretty :=
  ⟨rfl, rfl⟩

/-- Claim C10: when run_sql of the per-call client built by tokio_block_sql
  returns any Error, tokio_block_sql returns that error rendered to its
  display string as a success, never as a typed error. -/
theorem tokio_block_sql_error_to_text
    (flight_client : String → String → Except FlightError (List (Except FlightError RecordBatch)))
    (format_impl : QueryOutputFormat → List RecordBatch → Except FormatError String)
    (dbname sql : String) (e : Error)
    (h : Nuclient.run_sql flight_client format_impl
        (Nuclient.set_output_format
          ((Nuclient.new { url := ("http://127.0.0.1:8082") }).use_database dbname)
          ("csv")).1 sql = Except.error e) :
    tokio_block_sql flight_client format_impl dbname sql = Except.ok e.display := by
  simp only [tokio_block_sql, h]

/-- Witness for claim C10: a gateway that fails outright surfaces as the
  display text of RunningRemoteQuery, returned as a success. -/
theorem tokio_block_sql_error_to_text_witness :
    tokio_block_sql (fun _ _ => Except.error { display := ("boom") })
        (fun _ _ => Except.ok ("")) ("db") ("select 1") =
      Except.ok (Error.display (Error.RunningRemoteQuery { display := ("boom") })) := by
  exact tokio_block_sql_error_to_text
    (fun _ _ => Except.error { display := ("boom") })
    (fun _ _ => Except.ok ("")) ("db") ("select 1")
    (Error.RunningRemoteQuery { display := ("boom") }) rfl
